import Mathlib

/-!
Shallow embedding of the payment backend (Express controllers over a
Google-Sheets-backed ledger and the Razorpay gateway).

The ledger is a list of rows; a row is a list of cell values (strings or
numbers, as stored by the sheet).  External collaborators are parameters:
the HMAC-SHA256 hex digest is an abstract function argument, the gateway
fetch result and the JSON parse result are passed in as data, the current
clock reading is a string argument, and a `gsFail` flag models a
transport/auth failure of the spreadsheet backing store.
-/

namespace Manga

/-- A spreadsheet cell value: string or number (JS values written by the code). -/
inductive Val
  | str (v : String)
  | num (v : ℚ)
  deriving DecidableEq, Repr

/-- A sheet row: list of cells, columns A=0, B=1, ..., J=9, K=10, L=11. -/
abbrev Row := List Val

/-- Cell read with sheet semantics: an absent cell reads as the empty string. -/
def getCell (row : Row) (j : Nat) : Val :=
  (row[j]?).getD (.str "")

/-- JS `x || d` on an optional string: `undefined` and `""` are falsy. -/
def jsOr (o : Option String) (d : String) : String :=
  match o with
  | some s => if s = "" then d else s
  | none => d

/-- JS truthiness of an optional string field (`undefined` and `""` are falsy). -/
def strTruthy (o : Option String) : Bool :=
  match o with
  | some s => s ≠ ""
  | none => false

/-- Pad a row with empty cells to length at least `n`. -/
def padTo (row : Row) (n : Nat) : Row :=
  row ++ List.replicate (n - row.length) (.str "")

/-! ## googleSheetsService.js -/

/-- `appendRow(values)`: appends one row; rethrows transport errors. -/
def appendRow (gsFail : Bool) (sheet : List Row) (values : Row) : Except String (List Row) :=
  if gsFail then .error "transport" else .ok (sheet ++ [values])

/-- `getAllRows()`: reads the whole sheet; rethrows transport errors. -/
def getAllRows (gsFail : Bool) (sheet : List Row) : Except String (List Row) :=
  if gsFail then .error "transport" else .ok sheet

/-- The loop body of `findRowByOrderId`: `row && row[9] === orderId`.
The searched key is the JS value passed in (possibly `undefined` = `none`);
`undefined` never strictly equals a cell. -/
def rowMatches (key : Option String) (row : Row) : Bool :=
  match key with
  | some k => row[9]? == some (Val.str k)
  | none => false

/-- The `for` loop of `findRowByOrderId`, with running 0-based index `i`;
returns the 1-based index of the first match, else `-1`. -/
def findRowLoop (key : Option String) : List Row → Nat → Int
  | [], _ => -1
  | row :: rest, i => if rowMatches key row then ((i + 1 : Nat) : Int) else findRowLoop key rest (i + 1)

/-- `findRowByOrderId(orderId)`: full-sheet read, linear scan of column J
(index 9); returns a 1-based row index or `-1`.  A transport error is
caught inside the function and converted to the `-1` sentinel. -/
def findRowByOrderId (gsFail : Bool) (sheet : List Row) (orderId : Option String) : Int :=
  match getAllRows gsFail sheet with
  | .error _ => -1
  | .ok rows => findRowLoop orderId rows 0

/-- Overwrite columns G..L (indices 6..11) of a row with the six given
values, with Google-Sheets range-update semantics: cells before G that do
not exist become empty, cells after L are untouched. -/
def writeGL (row : Row) (data : Row) : Row :=
  (padTo row 6).take 6 ++ data ++ row.drop 12

/-- The sheet-level effect of `updateRow`: write `data` into `G{rowIndex}:L{rowIndex}`. -/
def applyUpdateGL (sheet : List Row) (rowIndex : Int) (data : Row) : List Row :=
  sheet.set (rowIndex.toNat - 1) (writeGL ((sheet[rowIndex.toNat - 1]?).getD []) data)

/-- `updateRow(rowIndex, paymentData)`: overwrites columns G..L of the
1-based row `rowIndex`; rethrows transport errors. -/
def updateRow (gsFail : Bool) (sheet : List Row) (rowIndex : Int) (data : Row) : Except String (List Row) :=
  if gsFail then .error "transport" else .ok (applyUpdateGL sheet rowIndex data)

/-- Overwrite columns `startCol..endCol` (0-based indices; G = 6) of a row. -/
def writeRange (row : Row) (startCol endCol : Nat) (data : Row) : Row :=
  (padTo row startCol).take startCol ++ data.take (endCol + 1 - startCol) ++ row.drop (endCol + 1)

/-- The sheet-level effect of `updateRowRange`. -/
def applyUpdateRange (sheet : List Row) (rowIndex : Int) (startCol endCol : Nat) (data : Row) : List Row :=
  sheet.set (rowIndex.toNat - 1) (writeRange ((sheet[rowIndex.toNat - 1]?).getD []) startCol endCol data)

/-- `updateRowRange(rowIndex, startColumn, endColumn, data)`; rethrows transport errors. -/
def updateRowRange (gsFail : Bool) (sheet : List Row) (rowIndex : Int) (startCol endCol : Nat) (data : Row) : Except String (List Row) :=
  if gsFail then .error "transport" else .ok (applyUpdateRange sheet rowIndex startCol endCol data)

/-- `clearRowRange(rowIndex, startColumn, endColumn)`: blanks the range; rethrows transport errors. -/
def clearRowRange (gsFail : Bool) (sheet : List Row) (rowIndex : Int) (startCol endCol : Nat) : Except String (List Row) :=
  if gsFail then .error "transport"
  else .ok (applyUpdateRange sheet rowIndex startCol endCol (List.replicate (endCol + 1 - startCol) (.str "")))

/-! ## HTTP-level values -/

/-- An HTTP response produced by a controller. -/
inductive Resp
  | json (code : Nat) (body : String)
  | redirect (url : String)
  deriving DecidableEq, Repr

/-- A ledger mutation issued by a handler (an `appendRow` or `updateRow` call). -/
inductive LedgerCall
  | append (row : Row)
  | update (rowIndex : Int) (data : Row)
  deriving DecidableEq, Repr

/-- Outcome of a handler: HTTP response, resulting sheet, ledger calls issued. -/
structure HOut where
  resp : Resp
  sheet : List Row
  calls : List LedgerCall
  deriving DecidableEq, Repr

def thankYouUrl : String := "https://iacg.co.in/manga-art-thank-you-page/"

def cancelRedirectUrl : String := "http://localhost:5173/"

/-! ## createOrder controller -/

/-- The JSON `amount` field of a create-order request: absent, a number, or a
value on which JS `isNaN` is true. -/
inductive JAmount
  | absent
  | num (q : ℚ)
  | nonNumeric
  deriving DecidableEq, Repr

/-- JS falsiness of the `amount` field (`!amount`). -/
def jAmountFalsy : JAmount → Bool
  | .absent => true
  | .num q => q = 0
  | .nonNumeric => false

/-- JS `isNaN(amount)`. -/
def jAmountIsNaN : JAmount → Bool
  | .absent => true
  | .num _ => false
  | .nonNumeric => true

/-- JS `Number(amount)` on a numeric value. -/
def jAmountNum : JAmount → ℚ
  | .num q => q
  | _ => 0

/-- JS `Math.round`: floor of `x + 1/2`. -/
def jsRound (q : ℚ) : ℤ := ⌊q + 1/2⌋

/-- Outcome of `createOrder`: response plus the minor-unit amounts of the
gateway orders created. -/
structure CreateOut where
  resp : Resp
  orders : List ℤ
  deriving DecidableEq, Repr

/-- `createOrder`: `400` if `!amount || isNaN(amount)`, else creates a gateway
order with `amount: Math.round(Number(amount) * 100)`. -/
def createOrder (amount : JAmount) : CreateOut :=
  if jAmountFalsy amount || jAmountIsNaN amount then
    ⟨.json 400 "amount is required and must be a number", []⟩
  else
    ⟨.json 200 "order", [jsRound (jAmountNum amount * 100)]⟩

/-! ## verifyPayment controller -/

/-- The three Razorpay fields of a verify-payment request (absent = `none`). -/
structure VerifyTriple where
  order_id : Option String
  payment_id : Option String
  signature : Option String
  deriving DecidableEq, Repr

/-- HTTP method of the verify-payment request. -/
inductive Method
  | get
  | post
  deriving DecidableEq, Repr

/-- `req.method === 'GET' ? req.query : req.body`. -/
def extractTriple (m : Method) (query body : VerifyTriple) : VerifyTriple :=
  match m with
  | .get => query
  | .post => body

/-- Result of `razorpay.payments.fetch` (fields of the payment entity used by
`verifyPayment`; each may be absent). -/
structure PayDetails where
  amount : Option ℚ
  currency : Option String
  status : Option String
  email : Option String
  deriving DecidableEq, Repr

/-- `paymentDetails?.amount ? paymentDetails.amount / 100 : 1`. -/
def pdAmountVal (pd : Option PayDetails) : Val :=
  match pd with
  | some d =>
    match d.amount with
    | some a => if a = 0 then .num 1 else .num (a / 100)
    | none => .num 1
  | none => .num 1

/-- `paymentDetails?.currency || 'INR'`. -/
def pdCurrency (pd : Option PayDetails) : String :=
  jsOr (pd.bind PayDetails.currency) "INR"

/-- `paymentDetails?.status || 'captured'`. -/
def pdStatus (pd : Option PayDetails) : String :=
  jsOr (pd.bind PayDetails.status) "captured"

/-- `paymentDetails?.email || ''`. -/
def pdEmail (pd : Option PayDetails) : String :=
  jsOr (pd.bind PayDetails.email) ""

/-- The `paymentData` array (columns G..L) written by `verifyPayment` on a found row. -/
def verifyPaymentData (pd : Option PayDetails) (pid oid now : String) : Row :=
  [pdAmountVal pd, .str (pdCurrency pd), .str pid, .str oid, .str (pdStatus pd), .str now]

/-- The `paymentRow` appended by `verifyPayment` when no row matches the order ID. -/
def verifyNewRow (pd : Option PayDetails) (pid oid now : String) : Row :=
  [.str now, .str "", .str "", .str (pdEmail pd), .str "", .str "",
   pdAmountVal pd, .str (pdCurrency pd), .str pid, .str oid, .str (pdStatus pd), .str now]

/-- `verifyPayment`: extract the triple by method, `400` on missing fields,
recompute the HMAC of `orderId|paymentId` under the gateway key secret and
`400` on mismatch, else find-or-create the ledger row and redirect to the
thank-you page; a spreadsheet failure is rethrown and surfaces as `500`. -/
def verifyPayment (secret : String) (hmacHex : String → String → String)
    (payFetch : Option PayDetails) (now : String) (m : Method)
    (query body : VerifyTriple) (gsFail : Bool) (sheet : List Row) : HOut :=
  let t := extractTriple m query body
  if !(strTruthy t.order_id) || !(strTruthy t.payment_id) || !(strTruthy t.signature) then
    ⟨.json 400 "Missing required fields", sheet, []⟩
  else
    let oid := jsOr t.order_id ""
    let pid := jsOr t.payment_id ""
    let sig := jsOr t.signature ""
    let generated := hmacHex secret (oid ++ "|" ++ pid)
    if generated ≠ sig then
      ⟨.json 400 "Invalid signature", sheet, []⟩
    else
      let i := findRowByOrderId gsFail sheet (some oid)
      if i ≠ -1 then
        let data := verifyPaymentData payFetch pid oid now
        match updateRow gsFail sheet i data with
        | .ok s2 => ⟨.redirect thankYouUrl, s2, [.update i data]⟩
        | .error _ => ⟨.json 500 "Internal Server Error", sheet, [.update i data]⟩
      else
        let row := verifyNewRow payFetch pid oid now
        match appendRow gsFail sheet row with
        | .ok s2 => ⟨.redirect thankYouUrl, s2, [.append row]⟩
        | .error _ => ⟨.json 500 "Internal Server Error", sheet, [.append row]⟩

/-! ## cancelPayment controller -/

/-- The `cancelData` array (columns G..L) written on a cancelled row. -/
def cancelData (oid now : String) : Row :=
  [.str "", .str "", .str "", .str oid, .str "cancelled", .str now]

/-- `cancelPayment`: if `order_id` is truthy, look the row up and overwrite
columns G..L with the cancellation data (errors from the sheet are caught
and logged); always redirect to the cancellation destination. -/
def cancelPayment (now : String) (order_id : Option String) (gsFail : Bool)
    (sheet : List Row) : HOut :=
  if strTruthy order_id then
    let oid := jsOr order_id ""
    let i := findRowByOrderId gsFail sheet (some oid)
    if i ≠ -1 then
      match updateRow gsFail sheet i (cancelData oid now) with
      | .ok s2 => ⟨.redirect cancelRedirectUrl, s2, [.update i (cancelData oid now)]⟩
      | .error _ => ⟨.redirect cancelRedirectUrl, sheet, [.update i (cancelData oid now)]⟩
    else ⟨.redirect cancelRedirectUrl, sheet, []⟩
  else ⟨.redirect cancelRedirectUrl, sheet, []⟩

/-! ## webhook controller -/

/-- The fields of `event.payload.payment.entity` used by the webhook sub-handlers. -/
structure PaymentEntity where
  id : Option String
  order_id : Option String
  amount : ℚ
  currency : Option String
  email : Option String
  deriving DecidableEq, Repr

/-- A parsed webhook event: its `event` kind string and its payment entity
(`none` when `event.payload.payment.entity` is not reachable, which makes the
JS dispatch throw). -/
structure WebhookEvent where
  event : String
  payment : Option PaymentEntity
  deriving DecidableEq, Repr

/-- The `paymentData` array (columns G..L) written by a webhook sub-handler. -/
def entityData (p : PaymentEntity) (status now : String) : Row :=
  [.num (p.amount / 100), .str (jsOr p.currency "INR"), .str (jsOr p.id ""),
   .str (jsOr p.order_id ""), .str status, .str now]

/-- The row appended by a webhook sub-handler when no row matches the order ID. -/
def entityNewRow (p : PaymentEntity) (status now : String) : Row :=
  [.str now, .str "", .str "", .str (jsOr p.email ""), .str "", .str "",
   .num (p.amount / 100), .str (jsOr p.currency "INR"), .str (jsOr p.id ""),
   .str (jsOr p.order_id ""), .str status, .str now]

/-- The shared body of `handlePaymentCaptured` / `Failed` / `Pending` /
`Authorized`: find-or-create by `payment.order_id`, then overwrite columns
G..L with the event's data; every error is caught and swallowed. -/
def handleStatusEvent (status now : String) (gsFail : Bool) (p : PaymentEntity)
    (sheet : List Row) : List Row × List LedgerCall :=
  let i := findRowByOrderId gsFail sheet p.order_id
  if i ≠ -1 then
    match updateRow gsFail sheet i (entityData p status now) with
    | .ok s2 => (s2, [.update i (entityData p status now)])
    | .error _ => (sheet, [.update i (entityData p status now)])
  else
    match appendRow gsFail sheet (entityNewRow p status now) with
    | .ok s2 => (s2, [.append (entityNewRow p status now)])
    | .error _ => (sheet, [.append (entityNewRow p status now)])

def handlePaymentCaptured (now : String) (gsFail : Bool) (p : PaymentEntity)
    (sheet : List Row) : List Row × List LedgerCall :=
  handleStatusEvent "captured" now gsFail p sheet

def handlePaymentFailed (now : String) (gsFail : Bool) (p : PaymentEntity)
    (sheet : List Row) : List Row × List LedgerCall :=
  handleStatusEvent "failed" now gsFail p sheet

def handlePaymentPending (now : String) (gsFail : Bool) (p : PaymentEntity)
    (sheet : List Row) : List Row × List LedgerCall :=
  handleStatusEvent "pending" now gsFail p sheet

def handlePaymentAuthorized (now : String) (gsFail : Bool) (p : PaymentEntity)
    (sheet : List Row) : List Row × List LedgerCall :=
  handleStatusEvent "authorized" now gsFail p sheet

/-- The event kinds the webhook dispatch recognizes. -/
def knownEvents : List String :=
  ["payment.captured", "payment.failed", "payment.pending", "payment.authorized"]

/-- The `switch (event.event)` dispatch of `webhookHandler`, entered after the
signature check: `500` if `JSON.parse` failed or a recognized event has no
reachable payment entity (the JS access throws); unknown kinds are logged and
ignored; in every non-throwing case the response is `200 ok`. -/
def webhookDispatch (parsed : Option WebhookEvent) (now : String) (gsFail : Bool)
    (sheet : List Row) : HOut :=
  match parsed with
  | none => ⟨.json 500 "Webhook processing failed", sheet, []⟩
  | some ev =>
    if ev.event = "payment.captured" then
      match ev.payment with
      | none => ⟨.json 500 "Webhook processing failed", sheet, []⟩
      | some p =>
        let r := handlePaymentCaptured now gsFail p sheet
        ⟨.json 200 "ok", r.1, r.2⟩
    else if ev.event = "payment.failed" then
      match ev.payment with
      | none => ⟨.json 500 "Webhook processing failed", sheet, []⟩
      | some p =>
        let r := handlePaymentFailed now gsFail p sheet
        ⟨.json 200 "ok", r.1, r.2⟩
    else if ev.event = "payment.pending" then
      match ev.payment with
      | none => ⟨.json 500 "Webhook processing failed", sheet, []⟩
      | some p =>
        let r := handlePaymentPending now gsFail p sheet
        ⟨.json 200 "ok", r.1, r.2⟩
    else if ev.event = "payment.authorized" then
      match ev.payment with
      | none => ⟨.json 500 "Webhook processing failed", sheet, []⟩
      | some p =>
        let r := handlePaymentAuthorized now gsFail p sheet
        ⟨.json 200 "ok", r.1, r.2⟩
    else ⟨.json 200 "ok", sheet, []⟩

/-- `webhookHandler`: if a webhook secret is configured, `400` unless the
header signature equals the HMAC of the raw payload (a missing header never
matches); otherwise (or when no secret is configured, where verification is
skipped with a warning) proceed to the event dispatch. -/
def webhookHandler (secret : Option String) (hmacHex : String → String → String)
    (payload : String) (sigHeader : Option String) (parsed : Option WebhookEvent)
    (now : String) (gsFail : Bool) (sheet : List Row) : HOut :=
  match secret with
  | some sec =>
    if sigHeader ≠ some (hmacHex sec payload) then
      ⟨.json 400 "invalid signature", sheet, []⟩
    else webhookDispatch parsed now gsFail sheet
  | none => webhookDispatch parsed now gsFail sheet

/-! ## Supporting lemmas -/

theorem set_self_of_getElem? {α : Type _} {l : List α} {n : Nat} {a : α}
    (h : l[n]? = some a) : l.set n a = l := by
  apply List.ext_getElem?
  intro i
  rw [List.getElem?_set]
  split
  · next heq =>
    subst heq
    split
    · exact h.symm
    · next hlt => exact absurd (List.getElem?_eq_some.mp h).1 hlt
  · rfl

theorem jsOr_some_empty (s : String) : jsOr (some s) "" = s := by
  by_cases h : s = "" <;> simp [jsOr, h]

/-- Index of the first row of the sheet whose column J holds the searched
order ID (the specification's description of the linear scan). -/
def firstMatch (key : Option String) : List Row → Option Nat
  | [] => none
  | r :: rest => if rowMatches key r then some 0 else (firstMatch key rest).map (· + 1)

theorem findRowLoop_eq (key : Option String) (rows : List Row) (i : Nat) :
    findRowLoop key rows i =
      match firstMatch key rows with
      | some j => ((i + j + 1 : Nat) : Int)
      | none => -1 := by
  induction rows generalizing i with
  | nil => rfl
  | cons a rest ih =>
    by_cases hm : rowMatches key a
    · simp [findRowLoop, firstMatch, hm]
    · simp only [findRowLoop, firstMatch, hm, if_false, Bool.false_eq_true, ih (i + 1)]
      cases h : firstMatch key rest with
      | none => simp
      | some j =>
        simp only [Option.map_some']
        norm_num
        omega

theorem findRowByOrderId_eq (sheet : List Row) (key : Option String) :
    findRowByOrderId false sheet key =
      match firstMatch key sheet with
      | some j => ((j + 1 : Nat) : Int)
      | none => -1 := by
  have h0 : findRowByOrderId false sheet key = findRowLoop key sheet 0 := rfl
  rw [h0, findRowLoop_eq key sheet 0]
  cases h : firstMatch key sheet <;> simp

theorem firstMatch_eq_none_iff (key : Option String) (s : List Row) :
    firstMatch key s = none ↔ ∀ r ∈ s, rowMatches key r = false := by
  induction s with
  | nil => simp [firstMatch]
  | cons a rest ih =>
    by_cases hm : rowMatches key a
    · simp [firstMatch, hm]
    · simp [firstMatch, hm, ih, Bool.not_eq_true _ ▸ hm]

theorem firstMatch_eq_some_iff (key : Option String) (s : List Row) (i : Nat) :
    firstMatch key s = some i ↔
      (∃ r, s[i]? = some r ∧ rowMatches key r = true) ∧
      ∀ j r, j < i → s[j]? = some r → rowMatches key r = false := by
  induction s generalizing i with
  | nil => simp [firstMatch]
  | cons a rest ih =>
    by_cases hm : rowMatches key a
    · simp only [firstMatch, hm, if_true]
      constructor
      · intro h
        obtain rfl : i = 0 := by simpa using h.symm
        exact ⟨⟨a, by simp, hm⟩, by omega⟩
      · rintro ⟨⟨r, hr, hrm⟩, hmin⟩
        cases i with
        | zero => rfl
        | succ k => exact absurd hm (by simpa using hmin 0 a (Nat.succ_pos k) (by simp))
    · simp only [firstMatch, hm, if_false, Bool.false_eq_true]
      constructor
      · intro h
        obtain ⟨j, hj, hji⟩ := Option.map_eq_some'.mp h
        subst hji
        obtain ⟨⟨r, hr, hrm⟩, hmin⟩ := (ih j).mp hj
        refine ⟨⟨r, by simpa using hr, hrm⟩, ?_⟩
        intro l r' hl hl'
        cases l with
        | zero =>
          obtain rfl : a = r' := by simpa using hl'
          simpa using hm
        | succ m => exact hmin m r' (by omega) (by simpa using hl')
      · rintro ⟨⟨r, hr, hrm⟩, hmin⟩
        cases i with
        | zero =>
          obtain rfl : a = r := by simpa using hr
          exact absurd hrm (by simpa using hm)
        | succ k =>
          have hk := (ih k).mpr
            ⟨⟨r, by simpa using hr, hrm⟩,
             fun j r' hj hj' => hmin (j + 1) r' (by omega) (by simpa using hj')⟩
          simp [hk]

theorem firstMatch_set_self {key : Option String} {s : List Row} {i : Nat}
    (h : firstMatch key s = some i) {r' : Row} (hm : rowMatches key r' = true) :
    firstMatch key (s.set i r') = some i := by
  obtain ⟨⟨r, hr, _⟩, hmin⟩ := (firstMatch_eq_some_iff key s i).mp h
  have hlt : i < s.length := (List.getElem?_eq_some.mp hr).1
  refine (firstMatch_eq_some_iff key (s.set i r') i).mpr ⟨⟨r', ?_, hm⟩, ?_⟩
  · exact List.getElem?_set_self hlt
  · intro j rj hj hj'
    exact hmin j rj hj (by rwa [List.getElem?_set_ne (by omega)] at hj')

theorem firstMatch_cons (key : Option String) (a : Row) (l : List Row) :
    firstMatch key (a :: l) =
      if rowMatches key a then some 0 else (firstMatch key l).map (· + 1) := rfl

theorem firstMatch_append_none {key : Option String} {s : List Row}
    (h : firstMatch key s = none) (r : Row) :
    firstMatch key (s ++ [r]) = if rowMatches key r then some s.length else none := by
  induction s with
  | nil => simp [firstMatch]
  | cons a rest ih =>
    have ha : rowMatches key a = false :=
      (firstMatch_eq_none_iff key (a :: rest)).mp h a (by simp)
    have hrest : firstMatch key rest = none := by
      rw [firstMatch_eq_none_iff]
      intro x hx
      exact (firstMatch_eq_none_iff key (a :: rest)).mp h x (by simp [hx])
    rw [List.cons_append, firstMatch_cons, ha, ih hrest]
    by_cases hr : rowMatches key r <;> simp [hr]

theorem length_padTo_take (row : Row) : (List.take 6 (padTo row 6)).length = 6 := by
  simp only [List.length_take, padTo, List.length_append, List.length_replicate]
  omega

theorem getElem?_writeGL (row d : Row) (hd : d.length = 6) (k : Nat) :
    (writeGL row d)[k]? =
      if k < 6 then (padTo row 6)[k]?
      else if k < 12 then d[k - 6]?
      else row[k]? := by
  have ht := length_padTo_take row
  rw [writeGL, List.getElem?_append, List.getElem?_append, List.getElem?_take,
    List.getElem?_drop, List.length_append, ht, hd]
  by_cases h6 : k < 6
  · rw [if_pos (by omega), if_pos (by omega), if_pos h6, if_pos h6]
  · by_cases h12 : k < 12
    · rw [if_pos (by omega), if_neg (by omega), if_neg h6, if_pos h12]
    · rw [if_neg (by omega), if_neg h6, if_neg h12]
      congr 1
      omega

theorem getCell_padTo_lt (row : Row) {k : Nat} (hk : k < 6) :
    getCell (padTo row 6) k = getCell row k := by
  by_cases h : k < row.length
  · rw [getCell, padTo, List.getElem?_append_left h, getCell]
  · rw [getCell, padTo, List.getElem?_append_right (by omega), List.getElem?_replicate]
    rw [if_pos (by omega), getCell, List.getElem?_eq_none (by omega)]
    rfl

theorem getCell_writeGL_lt (row d : Row) (hd : d.length = 6) {k : Nat} (hk : k < 6) :
    getCell (writeGL row d) k = getCell row k := by
  rw [getCell, getElem?_writeGL row d hd, if_pos hk, ← getCell, getCell_padTo_lt row hk]

theorem getCell_writeGL_ge (row d : Row) (hd : d.length = 6) {k : Nat} (hk : 12 ≤ k) :
    getCell (writeGL row d) k = getCell row k := by
  rw [getCell, getElem?_writeGL row d hd, if_neg (by omega), if_neg (by omega), getCell]

theorem getElem?_writeGL_mid (row d : Row) (hd : d.length = 6) {k : Nat}
    (h6 : 6 ≤ k) (h12 : k < 12) :
    (writeGL row d)[k]? = d[k - 6]? := by
  rw [getElem?_writeGL row d hd, if_neg (by omega), if_pos h12]

theorem length_writeGL (row d : Row) (hd : d.length = 6) : 6 ≤ (writeGL row d).length := by
  rw [writeGL, List.length_append, List.length_append, length_padTo_take, hd]
  omega

theorem padTo_eq_self_of_le {row : Row} (h : 6 ≤ row.length) : padTo row 6 = row := by
  rw [padTo, Nat.sub_eq_zero_of_le h]
  simp

theorem writeGL_writeGL (row d : Row) (hd : d.length = 6) :
    writeGL (writeGL row d) d = writeGL row d := by
  have h1 : padTo (writeGL row d) 6 = writeGL row d :=
    padTo_eq_self_of_le (length_writeGL row d hd)
  have htake : List.take 6 (writeGL row d) = List.take 6 (padTo row 6) := by
    rw [writeGL, List.append_assoc, List.take_left' (length_padTo_take row)]
  have hdrop : List.drop 12 (writeGL row d) = List.drop 12 row := by
    rw [writeGL, List.drop_left']
    rw [List.length_append, length_padTo_take, hd]
  calc writeGL (writeGL row d) d
      = (padTo (writeGL row d) 6).take 6 ++ d ++ (writeGL row d).drop 12 := rfl
    _ = (writeGL row d).take 6 ++ d ++ (writeGL row d).drop 12 := by rw [h1]
    _ = (padTo row 6).take 6 ++ d ++ row.drop 12 := by rw [htake, hdrop]
    _ = writeGL row d := rfl

theorem rowMatches_some (k : String) (row : Row) :
    rowMatches (some k) row = (row[9]? == some (Val.str k)) := rfl

theorem entityData_length (p : PaymentEntity) (status now : String) :
    (entityData p status now).length = 6 := rfl

theorem entityData_getElem3 {p : PaymentEntity} {oid : String} (status now : String)
    (h : p.order_id = some oid) :
    (entityData p status now)[3]? = some (.str oid) := by
  have h0 : (entityData p status now)[3]? = some (.str (jsOr p.order_id "")) := rfl
  rw [h0, h, jsOr_some_empty]

theorem entityNewRow_getElem9 {p : PaymentEntity} {oid : String} (status now : String)
    (h : p.order_id = some oid) :
    (entityNewRow p status now)[9]? = some (.str oid) := by
  have h0 : (entityNewRow p status now)[9]? = some (.str (jsOr p.order_id "")) := rfl
  rw [h0, h, jsOr_some_empty]

theorem rowMatches_writeGL_entityData {p : PaymentEntity} {oid : String}
    (status now : String) (row : Row) (h : p.order_id = some oid) :
    rowMatches (some oid) (writeGL row (entityData p status now)) = true := by
  rw [rowMatches_some,
    getElem?_writeGL_mid row _ (entityData_length p status now) (by omega) (by omega : (9 : Nat) < 12)]
  norm_num [entityData_getElem3 status now h]

theorem handleStatusEvent_found (status now : String) {p : PaymentEntity} {oid : String}
    (h : p.order_id = some oid) {sheet : List Row} {j : Nat}
    (hfm : firstMatch (some oid) sheet = some j) :
    handleStatusEvent status now false p sheet =
      (sheet.set j (writeGL ((sheet[j]?).getD []) (entityData p status now)),
       [.update ((j + 1 : Nat) : Int) (entityData p status now)]) := by
  have hupd : updateRow false sheet ((j + 1 : Nat) : Int) (entityData p status now) =
      .ok (applyUpdateGL sheet ((j + 1 : Nat) : Int) (entityData p status now)) := rfl
  have htn : ((((j + 1 : Nat) : Int)).toNat - 1) = j := by simp
  simp only [handleStatusEvent, h, findRowByOrderId_eq, hfm]
  rw [if_pos (by omega : ¬((j + 1 : Nat) : Int) = -1), hupd]
  simp only [applyUpdateGL, htn]

theorem handleStatusEvent_notFound (status now : String) {p : PaymentEntity} {oid : String}
    (h : p.order_id = some oid) {sheet : List Row}
    (hfm : firstMatch (some oid) sheet = none) :
    handleStatusEvent status now false p sheet =
      (sheet ++ [entityNewRow p status now], [.append (entityNewRow p status now)]) := by
  have happ : appendRow false sheet (entityNewRow p status now) =
      .ok (sheet ++ [entityNewRow p status now]) := rfl
  simp only [handleStatusEvent, h, findRowByOrderId_eq, hfm]
  rw [if_neg (by omega : ¬¬(-1 : Int) = -1), happ]

theorem handleStatusEvent_idem (status now : String) (p : PaymentEntity) (oid : String)
    (h : p.order_id = some oid) (sheet : List Row) :
    (handleStatusEvent status now false p (handleStatusEvent status now false p sheet).1).1
      = (handleStatusEvent status now false p sheet).1 ∧
    ∃ idx, (handleStatusEvent status now false p (handleStatusEvent status now false p sheet).1).2
      = [.update idx (entityData p status now)] := by
  cases hfm : firstMatch (some oid) sheet with
  | some j =>
    obtain ⟨⟨r0, hr0, _⟩, _⟩ := (firstMatch_eq_some_iff (some oid) sheet j).mp hfm
    have hjlt : j < sheet.length := (List.getElem?_eq_some.mp hr0).1
    have hstep := handleStatusEvent_found status now h hfm
    rw [hstep]
    have hget : (sheet[j]?).getD [] = r0 := by rw [hr0]; rfl
    rw [hget]
    set d := entityData p status now with hd
    set s1 := sheet.set j (writeGL r0 d) with hs1
    have hfm1 : firstMatch (some oid) s1 = some j := by
      rw [hs1, ← hget, hr0]
      exact firstMatch_set_self hfm (rowMatches_writeGL_entityData status now r0 h)
    have hstep2 := handleStatusEvent_found status now h hfm1
    rw [hstep2]
    have hs1j : s1[j]? = some (writeGL r0 d) := by
      rw [hs1]
      exact List.getElem?_set_self hjlt
    have hget2 : (s1[j]?).getD [] = writeGL r0 d := by rw [hs1j]; rfl
    rw [hget2, writeGL_writeGL r0 d (entityData_length p status now)]
    refine ⟨?_, ⟨((j + 1 : Nat) : Int), rfl⟩⟩
    exact set_self_of_getElem? hs1j
  | none =>
    have hstep := handleStatusEvent_notFound status now h hfm
    rw [hstep]
    set d := entityData p status now with hd
    set nr := entityNewRow p status now with hnr
    have hmatch : rowMatches (some oid) nr = true := by
      rw [hnr, rowMatches_some, entityNewRow_getElem9 status now h]
      simp
    have hfm1 : firstMatch (some oid) (sheet ++ [nr]) = some sheet.length := by
      rw [firstMatch_append_none hfm nr, if_pos hmatch]
    have hstep2 := handleStatusEvent_found status now h hfm1
    rw [hstep2]
    have hnrj : (sheet ++ [nr])[sheet.length]? = some nr := List.getElem?_concat_length sheet nr
    have hget2 : ((sheet ++ [nr])[sheet.length]?).getD [] = nr := by rw [hnrj]; rfl
    rw [hget2]
    have hwr : writeGL nr d = nr := by rw [hnr, hd]; rfl
    rw [hwr]
    refine ⟨?_, ⟨((sheet.length + 1 : Nat) : Int), rfl⟩⟩
    exact set_self_of_getElem? hnrj

theorem rowMatches_some_iff_true {k : String} {row : Row} :
    rowMatches (some k) row = true ↔ row[9]? = some (Val.str k) := by
  rw [rowMatches_some]
  exact beq_iff_eq

theorem rowMatches_some_iff_false {k : String} {row : Row} :
    rowMatches (some k) row = false ↔ row[9]? ≠ some (Val.str k) := by
  rw [rowMatches_some]
  exact beq_eq_false_iff_ne

theorem findRowByOrderId_eq_none_iff (sheet : List Row) (key : Option String) :
    findRowByOrderId false sheet key = -1 ↔ firstMatch key sheet = none := by
  rw [findRowByOrderId_eq]
  cases h : firstMatch key sheet with
  | none => simp
  | some j =>
    show ((j + 1 : Nat) : Int) = -1 ↔ some j = none
    constructor
    · intro hc
      exfalso
      omega
    · intro hc
      exact absurd hc (by simp)

theorem findRowByOrderId_eq_some_iff (sheet : List Row) (key : Option String) (i : Nat) :
    findRowByOrderId false sheet key = ((i + 1 : Nat) : Int) ↔
      firstMatch key sheet = some i := by
  rw [findRowByOrderId_eq]
  cases h : firstMatch key sheet with
  | none =>
    show (-1 : Int) = ((i + 1 : Nat) : Int) ↔ none = some i
    constructor
    · intro hc
      exfalso
      omega
    · intro hc
      exact absurd hc (by simp)
  | some j =>
    show ((j + 1 : Nat) : Int) = ((i + 1 : Nat) : Int) ↔ some j = some i
    constructor
    · intro hc
      have hji : j = i := by omega
      rw [hji]
    · intro hc
      obtain rfl := Option.some.inj hc
      rfl

/-! ## Claim theorems -/

/-- C2 counterexample: with the backing store failing, `findRowByOrderId`
returns the ordinary not-found sentinel `-1` — here even though a matching
row exists and a successful run returns `1` — rather than propagating the
transport error to its caller. -/
theorem C2_counterexample :
    findRowByOrderId true
      [[Val.str "t", .str "n", .str "m", .str "e", .str "c", .str "x",
        .num 1, .str "INR", .str "p", .str "oid_1", .str "captured", .str "t"]]
      (some "oid_1") = -1 ∧
    findRowByOrderId false
      [[Val.str "t", .str "n", .str "m", .str "e", .str "c", .str "x",
        .num 1, .str "INR", .str "p", .str "oid_1", .str "captured", .str "t"]]
      (some "oid_1") = 1 := by
  exact ⟨rfl, by decide⟩

/-- C2 (amended): `appendRow`, `updateRow`, `updateRowRange` and
`clearRowRange` propagate transport/auth errors of the backing store to the
caller, but `findRowByOrderId` catches them and returns the not-found
sentinel `-1` as a normal value. -/
theorem C2_amended_error_propagation (sheet : List Row) (values data : Row)
    (rowIndex : Int) (startCol endCol : Nat) (key : Option String) :
    appendRow true sheet values = .error "transport" ∧
    updateRow true sheet rowIndex data = .error "transport" ∧
    updateRowRange true sheet rowIndex startCol endCol data = .error "transport" ∧
    clearRowRange true sheet rowIndex startCol endCol = .error "transport" ∧
    findRowByOrderId true sheet key = -1 := by
  exact ⟨rfl, rfl, rfl, rfl, rfl⟩

/-- C9. `findRowByOrderId` (run against a healthy store) returns `-1` exactly
when no row's column J (index 9) equals the searched order ID, and returns the
1-based index `i+1` exactly when row `i` matches and no earlier row does —
hence with duplicate order IDs only the first row is ever selected. -/
theorem C9_find_first_match (sheet : List Row) (oid : String) :
    (findRowByOrderId false sheet (some oid) = -1 ↔
      ∀ r ∈ sheet, r[9]? ≠ some (Val.str oid)) ∧
    ∀ i : Nat, findRowByOrderId false sheet (some oid) = ((i + 1 : Nat) : Int) ↔
      ((∃ r, sheet[i]? = some r ∧ r[9]? = some (Val.str oid)) ∧
       ∀ j r, j < i → sheet[j]? = some r → r[9]? ≠ some (Val.str oid)) := by
  constructor
  · rw [findRowByOrderId_eq_none_iff, firstMatch_eq_none_iff]
    constructor
    · intro hh r hr
      exact rowMatches_some_iff_false.mp (hh r hr)
    · intro hh r hr
      exact rowMatches_some_iff_false.mpr (hh r hr)
  · intro i
    rw [findRowByOrderId_eq_some_iff, firstMatch_eq_some_iff]
    constructor
    · rintro ⟨⟨r, hr, hmatch⟩, hmin⟩
      exact ⟨⟨r, hr, rowMatches_some_iff_true.mp hmatch⟩,
        fun j rj hj hj' => rowMatches_some_iff_false.mp (hmin j rj hj hj')⟩
    · rintro ⟨⟨r, hr, hmatch⟩, hmin⟩
      exact ⟨⟨r, hr, rowMatches_some_iff_true.mpr hmatch⟩,
        fun j rj hj hj' => rowMatches_some_iff_false.mpr (hmin j rj hj hj')⟩

/-- Witness for C9: on the empty sheet the scan reports not-found. -/
theorem C9_witness : findRowByOrderId false [] (some "o") = -1 :=
  (C9_find_first_match [] "o").1.mpr (by simp)

/-- C7. For every verify-payment request (either method) in which one of the
three Razorpay fields is absent, the handler answers `400` and performs no
ledger mutation (no append or update call; the sheet is returned unchanged). -/
theorem C7_missing_fields (secret : String) (hmacHex : String → String → String)
    (payFetch : Option PayDetails) (now : String) (m : Method)
    (query body : VerifyTriple) (gsFail : Bool) (sheet : List Row)
    (h : (extractTriple m query body).order_id = none ∨
         (extractTriple m query body).payment_id = none ∨
         (extractTriple m query body).signature = none) :
    verifyPayment secret hmacHex payFetch now m query body gsFail sheet =
      ⟨.json 400 "Missing required fields", sheet, []⟩ := by
  rcases h with h | h | h <;> simp [verifyPayment, strTruthy, h]

/-- Witness for C7 at a concrete GET request with no order ID. -/
theorem C7_witness :
    verifyPayment "sec" (fun _ _ => "h") none "t0" .get
      ⟨none, some "pay_1", some "sig_1"⟩ ⟨some "x", some "y", some "z"⟩ false [] =
      ⟨.json 400 "Missing required fields", [], []⟩ :=
  C7_missing_fields "sec" (fun _ _ => "h") none "t0" .get
    ⟨none, some "pay_1", some "sig_1"⟩ ⟨some "x", some "y", some "z"⟩ false []
    (Or.inl rfl)

/-- C6. A cancellation request whose `order_id` is absent, or present but
matching no ledger row, performs no ledger mutation and still redirects to the
fixed cancellation destination. -/
theorem C6_cancel_noop (now : String) (order_id : Option String) (gsFail : Bool)
    (sheet : List Row)
    (h : order_id = none ∨
         ∃ s, order_id = some s ∧ findRowByOrderId gsFail sheet (some s) = -1) :
    cancelPayment now order_id gsFail sheet = ⟨.redirect cancelRedirectUrl, sheet, []⟩ := by
  rcases h with h | ⟨s, rfl, hfind⟩
  · subst h; rfl
  · by_cases hs : s = ""
    · subst hs; simp [cancelPayment, strTruthy]
    · simp [cancelPayment, strTruthy, hs, jsOr, hfind]

/-- Witness for C6 at a concrete request with no order ID. -/
theorem C6_witness :
    cancelPayment "t0" none false [] = ⟨.redirect cancelRedirectUrl, [], []⟩ :=
  C6_cancel_noop "t0" none false [] (Or.inl rfl)

/-- C8 counterexample: the amount `0` is present and numeric, yet the handler
answers `400` and creates no gateway order (the JS guard `!amount` also
rejects zero), contradicting the claim that every present-and-numeric amount
yields a gateway order of `round(amount*100)`. -/
theorem C8_counterexample :
    (createOrder (.num 0)).orders = [] ∧
    (createOrder (.num 0)).resp = .json 400 "amount is required and must be a number" := by
  exact ⟨rfl, rfl⟩

/-- C8 (amended). For every create-order request whose amount is present,
numeric and nonzero, the gateway order carries the minor-unit amount
`round(amount*100)`; if the amount is missing, non-numeric or zero the
response is `400` and no gateway order is created. -/
theorem C8_amended_create_order (q : ℚ) :
    (q ≠ 0 → createOrder (.num q) = ⟨.json 200 "order", [jsRound (q * 100)]⟩) ∧
    (q = 0 → createOrder (.num q) =
      ⟨.json 400 "amount is required and must be a number", []⟩) ∧
    createOrder .absent = ⟨.json 400 "amount is required and must be a number", []⟩ ∧
    createOrder .nonNumeric = ⟨.json 400 "amount is required and must be a number", []⟩ := by
  refine ⟨?_, ?_, rfl, rfl⟩
  · intro hq
    simp [createOrder, jAmountFalsy, jAmountIsNaN, jAmountNum, hq]
  · intro hq
    subst hq
    simp [createOrder, jAmountFalsy, jAmountIsNaN]

/-- Witness for C8 at the concrete amount 3/2 (rupees), yielding 150 paise. -/
theorem C8_witness :
    createOrder (.num (3/2)) = ⟨.json 200 "order", [jsRound ((3/2 : ℚ) * 100)]⟩ ∧
    jsRound ((3/2 : ℚ) * 100) = 150 :=
  ⟨(C8_amended_create_order (3/2)).1 (by norm_num), by norm_num [jsRound]⟩

theorem webhookDispatch_status (ev : WebhookEvent) (p : PaymentEntity)
    (hp : ev.payment = some p) (he : ev.event ∈ knownEvents) :
    ∃ st : String, ∀ (now : String) (gsFail : Bool) (sheet : List Row),
      webhookDispatch (some ev) now gsFail sheet =
        ⟨.json 200 "ok", (handleStatusEvent st now gsFail p sheet).1,
         (handleStatusEvent st now gsFail p sheet).2⟩ := by
  simp only [knownEvents, List.mem_cons, List.mem_singleton, List.not_mem_nil, or_false] at he
  rcases he with he | he | he | he
  · exact ⟨"captured", fun now g s => by
      simp [webhookDispatch, he, hp, handlePaymentCaptured]⟩
  · exact ⟨"failed", fun now g s => by
      simp [webhookDispatch, he, hp, handlePaymentFailed]⟩
  · exact ⟨"pending", fun now g s => by
      simp [webhookDispatch, he, hp, handlePaymentPending]⟩
  · exact ⟨"authorized", fun now g s => by
      simp [webhookDispatch, he, hp, handlePaymentAuthorized]⟩

theorem webhookDispatch_known_noEntity (ev : WebhookEvent) (hp : ev.payment = none)
    (he : ev.event ∈ knownEvents) (now : String) (gsFail : Bool) (sheet : List Row) :
    webhookDispatch (some ev) now gsFail sheet =
      ⟨.json 500 "Webhook processing failed", sheet, []⟩ := by
  simp only [knownEvents, List.mem_cons, List.mem_singleton, List.not_mem_nil, or_false] at he
  rcases he with he | he | he | he <;> simp [webhookDispatch, he, hp]

theorem webhookDispatch_unknown (ev : WebhookEvent) (he : ev.event ∉ knownEvents)
    (now : String) (gsFail : Bool) (sheet : List Row) :
    webhookDispatch (some ev) now gsFail sheet = ⟨.json 200 "ok", sheet, []⟩ := by
  simp only [knownEvents, List.mem_cons, List.mem_singleton, List.not_mem_nil, or_false,
    not_or] at he
  obtain ⟨h1, h2, h3, h4⟩ := he
  simp [webhookDispatch, h1, h2, h3, h4]

theorem webhookHandler_sigOk (secret : Option String) (hmacHex : String → String → String)
    (payload : String) (sigHeader : Option String) (parsed : Option WebhookEvent)
    (now : String) (gsFail : Bool)
    (hsig : ∀ sec, secret = some sec → sigHeader = some (hmacHex sec payload))
    (sheet : List Row) :
    webhookHandler secret hmacHex payload sigHeader parsed now gsFail sheet =
      webhookDispatch parsed now gsFail sheet := by
  cases secret with
  | none => rfl
  | some sec => simp [webhookHandler, hsig sec rfl]

/-- C5. The webhook response is `400 invalid signature` exactly when a secret
is configured and the header signature does not equal the HMAC of the raw
payload; with the signature accepted (or no secret configured, where the
check is skipped), the response is `500` when parsing throws or a recognized
event has no reachable payment entity, and `200 ok` otherwise — including for
unrecognized event kinds, which are ignored. -/
theorem C5_webhook_status (secret : Option String) (hmacHex : String → String → String)
    (payload : String) (sigHeader : Option String) (parsed : Option WebhookEvent)
    (now : String) (gsFail : Bool) (sheet : List Row) :
    (∀ sec, secret = some sec → sigHeader ≠ some (hmacHex sec payload) →
      (webhookHandler secret hmacHex payload sigHeader parsed now gsFail sheet).resp =
        .json 400 "invalid signature") ∧
    ((∀ sec, secret = some sec → sigHeader = some (hmacHex sec payload)) →
      ((parsed = none →
          (webhookHandler secret hmacHex payload sigHeader parsed now gsFail sheet).resp =
            .json 500 "Webhook processing failed") ∧
       (∀ ev, parsed = some ev → ev.event ∈ knownEvents → ev.payment = none →
          (webhookHandler secret hmacHex payload sigHeader parsed now gsFail sheet).resp =
            .json 500 "Webhook processing failed") ∧
       (∀ ev p, parsed = some ev → ev.event ∈ knownEvents → ev.payment = some p →
          (webhookHandler secret hmacHex payload sigHeader parsed now gsFail sheet).resp =
            .json 200 "ok") ∧
       (∀ ev, parsed = some ev → ev.event ∉ knownEvents →
          (webhookHandler secret hmacHex payload sigHeader parsed now gsFail sheet).resp =
            .json 200 "ok"))) := by
  constructor
  · intro sec hsec hne
    subst hsec
    simp [webhookHandler, hne]
  · intro hsig
    rw [webhookHandler_sigOk secret hmacHex payload sigHeader parsed now gsFail hsig sheet]
    refine ⟨?_, ?_, ?_, ?_⟩
    · rintro rfl
      rfl
    · rintro ev rfl he hp
      rw [webhookDispatch_known_noEntity ev hp he now gsFail sheet]
    · rintro ev p rfl he hp
      obtain ⟨st, hst⟩ := webhookDispatch_status ev p hp he
      rw [hst now gsFail sheet]
    · rintro ev rfl he
      rw [webhookDispatch_unknown ev he now gsFail sheet]

/-- Witness for C5: a configured secret with a mismatching header signature is
answered `400 invalid signature`. -/
theorem C5_witness :
    (webhookHandler (some "whsec") (fun _ _ => "good") "payload" (some "bad") none
      "t0" false []).resp = .json 400 "invalid signature" :=
  (C5_webhook_status (some "whsec") (fun _ _ => "good") "payload" (some "bad") none
    "t0" false []).1 "whsec" rfl (by simp)

/-- C1. For every verify-payment request (GET or POST) with all three fields
present (truthy), verification succeeds exactly when the hex HMAC of
`orderId|paymentId` under the gateway key secret equals the supplied
signature: a mismatch is answered `400` with no ledger mutation (no append or
update call, sheet unchanged), and a match proceeds to the thank-you
redirect (shown here against a healthy store). -/
theorem C1_verify_signature (secret : String) (hmacHex : String → String → String)
    (payFetch : Option PayDetails) (now : String) (m : Method)
    (query body : VerifyTriple) (gsFail : Bool) (sheet : List Row)
    (oid pid sig : String)
    (ho : (extractTriple m query body).order_id = some oid) (ho' : oid ≠ "")
    (hp : (extractTriple m query body).payment_id = some pid) (hp' : pid ≠ "")
    (hs : (extractTriple m query body).signature = some sig) (hs' : sig ≠ "") :
    (hmacHex secret (oid ++ "|" ++ pid) ≠ sig →
      verifyPayment secret hmacHex payFetch now m query body gsFail sheet =
        ⟨.json 400 "Invalid signature", sheet, []⟩) ∧
    (hmacHex secret (oid ++ "|" ++ pid) = sig → gsFail = false →
      (verifyPayment secret hmacHex payFetch now m query body gsFail sheet).resp =
        .redirect thankYouUrl) := by
  constructor
  · intro hne
    simp only [verifyPayment, ho, hp, hs, jsOr_some_empty]
    rw [if_neg (by simp [strTruthy, ho', hp', hs'])]
    rw [if_pos hne]
  · intro heq hg
    subst hg
    simp only [verifyPayment, ho, hp, hs, jsOr_some_empty]
    rw [if_neg (by simp [strTruthy, ho', hp', hs'])]
    rw [if_neg (not_not_intro heq)]
    by_cases hi : findRowByOrderId false sheet (some oid) = -1
    · rw [if_neg (not_not_intro hi)]
      rfl
    · rw [if_pos hi]
      rfl

/-- Witness for C1: a concrete matching triple is redirected to the thank-you
page. -/
theorem C1_witness :
    (verifyPayment "sec" (fun _ _ => "sg") none "t0" .get
      ⟨some "ord_1", some "pay_1", some "sg"⟩ ⟨none, none, none⟩ false []).resp =
      .redirect thankYouUrl :=
  (C1_verify_signature "sec" (fun _ _ => "sg") none "t0" .get
    ⟨some "ord_1", some "pay_1", some "sg"⟩ ⟨none, none, none⟩ false []
    "ord_1" "pay_1" "sg" rfl (by decide) rfl (by decide) rfl (by decide)).2 rfl rfl

/-- C3 counterexample: a captured-payment event whose entity carries an email
is appended (sheet empty, so the row is not found) with the email written into
identity column D (index 3) — not blank, contrary to the claim that all
identity columns (name, mobile, email, city, experience) are blank. -/
theorem C3_counterexample :
    getCell (((handlePaymentCaptured "t0" false
        ⟨some "pay_1", some "order_1", 10000, some "INR", some "a@x.com"⟩ []).1).getD 0 []) 3 =
      .str "a@x.com" ∧ Val.str "a@x.com" ≠ Val.str "" := by
  exact ⟨rfl, by decide⟩

/-- C3 (amended). When `findRowByOrderId` returns the not-found sentinel, the
find-or-create routine (webhook sub-handlers, and `verifyPayment`) appends one
brand-new row whose payment columns G..L are populated, whose identity columns
name/mobile/city/experience (B, C, E, F) are blank, and whose email column D
holds the payment entity's email when present (blank otherwise). -/
theorem C3_amended_new_row :
    (∀ (status now : String) (p : PaymentEntity) (sheet : List Row),
      findRowByOrderId false sheet p.order_id = -1 →
      (handleStatusEvent status now false p sheet).1 = sheet ++ [entityNewRow p status now] ∧
      (handleStatusEvent status now false p sheet).2 = [.append (entityNewRow p status now)] ∧
      getCell (entityNewRow p status now) 1 = .str "" ∧
      getCell (entityNewRow p status now) 2 = .str "" ∧
      getCell (entityNewRow p status now) 4 = .str "" ∧
      getCell (entityNewRow p status now) 5 = .str "" ∧
      getCell (entityNewRow p status now) 3 = .str (jsOr p.email "") ∧
      getCell (entityNewRow p status now) 6 = .num (p.amount / 100) ∧
      getCell (entityNewRow p status now) 7 = .str (jsOr p.currency "INR") ∧
      getCell (entityNewRow p status now) 8 = .str (jsOr p.id "") ∧
      getCell (entityNewRow p status now) 9 = .str (jsOr p.order_id "") ∧
      getCell (entityNewRow p status now) 10 = .str status ∧
      getCell (entityNewRow p status now) 11 = .str now) ∧
    (∀ (secret : String) (hmacHex : String → String → String) (payFetch : Option PayDetails)
       (now : String) (m : Method) (query body : VerifyTriple) (sheet : List Row)
       (oid pid sig : String),
      (extractTriple m query body).order_id = some oid → oid ≠ "" →
      (extractTriple m query body).payment_id = some pid → pid ≠ "" →
      (extractTriple m query body).signature = some sig → sig ≠ "" →
      hmacHex secret (oid ++ "|" ++ pid) = sig →
      findRowByOrderId false sheet (some oid) = -1 →
      (verifyPayment secret hmacHex payFetch now m query body false sheet).sheet =
        sheet ++ [verifyNewRow payFetch pid oid now] ∧
      (verifyPayment secret hmacHex payFetch now m query body false sheet).calls =
        [.append (verifyNewRow payFetch pid oid now)] ∧
      getCell (verifyNewRow payFetch pid oid now) 1 = .str "" ∧
      getCell (verifyNewRow payFetch pid oid now) 2 = .str "" ∧
      getCell (verifyNewRow payFetch pid oid now) 4 = .str "" ∧
      getCell (verifyNewRow payFetch pid oid now) 5 = .str "" ∧
      getCell (verifyNewRow payFetch pid oid now) 3 = .str (pdEmail payFetch) ∧
      getCell (verifyNewRow payFetch pid oid now) 6 = pdAmountVal payFetch ∧
      getCell (verifyNewRow payFetch pid oid now) 7 = .str (pdCurrency payFetch) ∧
      getCell (verifyNewRow payFetch pid oid now) 8 = .str pid ∧
      getCell (verifyNewRow payFetch pid oid now) 9 = .str oid ∧
      getCell (verifyNewRow payFetch pid oid now) 10 = .str (pdStatus payFetch) ∧
      getCell (verifyNewRow payFetch pid oid now) 11 = .str now) := by
  constructor
  · intro status now p sheet hfind
    have hstep : handleStatusEvent status now false p sheet =
        (sheet ++ [entityNewRow p status now], [.append (entityNewRow p status now)]) := by
      simp only [handleStatusEvent, hfind]
      rw [if_neg (not_not_intro rfl)]
      rfl
    rw [hstep]
    exact ⟨rfl, rfl, rfl, rfl, rfl, rfl, rfl, rfl, rfl, rfl, rfl, rfl, rfl⟩
  · intro secret hmacHex payFetch now m query body sheet oid pid sig ho ho' hp hp' hs hs' heq hfind
    simp only [verifyPayment, ho, hp, hs, jsOr_some_empty]
    rw [if_neg (by simp [strTruthy, ho', hp', hs'])]
    rw [if_neg (not_not_intro heq)]
    rw [if_neg (not_not_intro hfind)]
    exact ⟨rfl, rfl, rfl, rfl, rfl, rfl, rfl, rfl, rfl, rfl, rfl, rfl, rfl⟩

/-- Witness for C3 (amended) at a concrete captured event over an empty sheet. -/
theorem C3_witness :
    (handleStatusEvent "captured" "t0" false
      ⟨some "pay_1", some "order_1", 200, none, none⟩ []).1 =
      [] ++ [entityNewRow ⟨some "pay_1", some "order_1", 200, none, none⟩ "captured" "t0"] :=
  ((C3_amended_new_row).1 "captured" "t0"
    ⟨some "pay_1", some "order_1", 200, none, none⟩ [] rfl).1

/-- C4. Delivering the same webhook event (carrying a payment entity with an
order ID) twice through the webhook handler yields a ledger identical to
delivering it once, and the second delivery issues no append call (for
recognized events it re-updates the same row; unrecognized events never touch
the ledger). -/
theorem C4_webhook_idempotent (secret : Option String) (hmacHex : String → String → String)
    (payload : String) (sigHeader : Option String) (ev : WebhookEvent) (p : PaymentEntity)
    (oid now : String) (sheet : List Row)
    (hsig : ∀ sec, secret = some sec → sigHeader = some (hmacHex sec payload))
    (hp : ev.payment = some p) (hoid : p.order_id = some oid) :
    (webhookHandler secret hmacHex payload sigHeader (some ev) now false
        (webhookHandler secret hmacHex payload sigHeader (some ev) now false sheet).sheet).sheet =
      (webhookHandler secret hmacHex payload sigHeader (some ev) now false sheet).sheet ∧
    ∀ c ∈ (webhookHandler secret hmacHex payload sigHeader (some ev) now false
        (webhookHandler secret hmacHex payload sigHeader (some ev) now false sheet).sheet).calls,
      ∀ r : Row, c ≠ LedgerCall.append r := by
  simp only [webhookHandler_sigOk secret hmacHex payload sigHeader (some ev) now false hsig]
  by_cases hk : ev.event ∈ knownEvents
  · obtain ⟨st, hdisp⟩ := webhookDispatch_status ev p hp hk
    simp only [hdisp]
    obtain ⟨hidem, idx, hcalls⟩ := handleStatusEvent_idem st now p oid hoid sheet
    constructor
    · exact hidem
    · intro c hc r
      rw [hcalls] at hc
      simp only [List.mem_singleton] at hc
      subst hc
      simp
  · simp [webhookDispatch_unknown ev hk now false]

/-- Witness for C4 at a concrete captured event with no webhook secret. -/
theorem C4_witness :
    (webhookHandler none (fun _ _ => "") "" none
        (some ⟨"payment.captured", some ⟨some "pay_9", some "ord_9", 200, none, none⟩⟩)
        "t0" false
        ((webhookHandler none (fun _ _ => "") "" none
          (some ⟨"payment.captured", some ⟨some "pay_9", some "ord_9", 200, none, none⟩⟩)
          "t0" false []).sheet)).sheet =
      (webhookHandler none (fun _ _ => "") "" none
        (some ⟨"payment.captured", some ⟨some "pay_9", some "ord_9", 200, none, none⟩⟩)
        "t0" false []).sheet :=
  (C4_webhook_idempotent none (fun _ _ => "") "" none
    ⟨"payment.captured", some ⟨some "pay_9", some "ord_9", 200, none, none⟩⟩
    ⟨some "pay_9", some "ord_9", 200, none, none⟩ "ord_9" "t0" []
    (fun _ h => Option.noConfusion h) rfl rfl).1

/-- C10. A cancellation whose order ID is found at (1-based) row `i+1`
overwrites only columns G..L of that row — blanking G, H, I, writing the order
ID into J, `cancelled` into K and the timestamp into L — while leaving
columns A..F (and everything from column M on) of that row, and every other
row, unchanged; the response is the fixed cancellation redirect. -/
theorem C10_cancel_frame (now oid : String) (sheet : List Row) (i : Nat)
    (hne : oid ≠ "")
    (hfind : findRowByOrderId false sheet (some oid) = ((i + 1 : Nat) : Int)) :
    (cancelPayment now (some oid) false sheet).resp = .redirect cancelRedirectUrl ∧
    (cancelPayment now (some oid) false sheet).calls =
      [.update ((i + 1 : Nat) : Int) (cancelData oid now)] ∧
    (cancelPayment now (some oid) false sheet).sheet.length = sheet.length ∧
    (∀ k, k ≠ i → (cancelPayment now (some oid) false sheet).sheet[k]? = sheet[k]?) ∧
    ∃ r r2, sheet[i]? = some r ∧
      (cancelPayment now (some oid) false sheet).sheet[i]? = some r2 ∧
      getCell r2 6 = .str "" ∧ getCell r2 7 = .str "" ∧ getCell r2 8 = .str "" ∧
      getCell r2 9 = .str oid ∧ getCell r2 10 = .str "cancelled" ∧ getCell r2 11 = .str now ∧
      ∀ j, j < 6 ∨ 12 ≤ j → getCell r2 j = getCell r j := by
  have hfm := (findRowByOrderId_eq_some_iff sheet (some oid) i).mp hfind
  obtain ⟨⟨r, hr, hrm⟩, hmin⟩ := (firstMatch_eq_some_iff (some oid) sheet i).mp hfm
  have hlt : i < sheet.length := (List.getElem?_eq_some.mp hr).1
  have happ : applyUpdateGL sheet ((i + 1 : Nat) : Int) (cancelData oid now) =
      sheet.set i (writeGL r (cancelData oid now)) := by
    simp only [applyUpdateGL, Int.toNat_natCast, Nat.add_sub_cancel, hr, Option.getD_some]
  have hupd : updateRow false sheet ((i + 1 : Nat) : Int) (cancelData oid now) =
      .ok (sheet.set i (writeGL r (cancelData oid now))) := by
    rw [← happ]
    rfl
  have hout : cancelPayment now (some oid) false sheet =
      ⟨.redirect cancelRedirectUrl, sheet.set i (writeGL r (cancelData oid now)),
       [.update ((i + 1 : Nat) : Int) (cancelData oid now)]⟩ := by
    simp only [cancelPayment, jsOr_some_empty]
    rw [if_pos (show strTruthy (some oid) = true by simp [strTruthy, hne]), hfind,
      if_pos (show ((i + 1 : Nat) : Int) ≠ -1 by omega), hupd]
  rw [hout]
  refine ⟨rfl, rfl, by simp [List.length_set], ?_, ?_⟩
  · intro k hk
    exact List.getElem?_set_ne (Ne.symm hk)
  · refine ⟨r, writeGL r (cancelData oid now), hr, List.getElem?_set_self hlt,
      ?_, ?_, ?_, ?_, ?_, ?_, ?_⟩
    · show ((writeGL r (cancelData oid now))[6]?).getD (.str "") = .str ""
      rw [getElem?_writeGL_mid r (cancelData oid now) rfl
        (by omega : (6 : Nat) ≤ 6) (by omega : (6 : Nat) < 12)]
      rfl
    · show ((writeGL r (cancelData oid now))[7]?).getD (.str "") = .str ""
      rw [getElem?_writeGL_mid r (cancelData oid now) rfl
        (by omega : (6 : Nat) ≤ 7) (by omega : (7 : Nat) < 12)]
      rfl
    · show ((writeGL r (cancelData oid now))[8]?).getD (.str "") = .str ""
      rw [getElem?_writeGL_mid r (cancelData oid now) rfl
        (by omega : (6 : Nat) ≤ 8) (by omega : (8 : Nat) < 12)]
      rfl
    · show ((writeGL r (cancelData oid now))[9]?).getD (.str "") = .str oid
      rw [getElem?_writeGL_mid r (cancelData oid now) rfl
        (by omega : (6 : Nat) ≤ 9) (by omega : (9 : Nat) < 12)]
      rfl
    · show ((writeGL r (cancelData oid now))[10]?).getD (.str "") = .str "cancelled"
      rw [getElem?_writeGL_mid r (cancelData oid now) rfl
        (by omega : (6 : Nat) ≤ 10) (by omega : (10 : Nat) < 12)]
      rfl
    · show ((writeGL r (cancelData oid now))[11]?).getD (.str "") = .str now
      rw [getElem?_writeGL_mid r (cancelData oid now) rfl
        (by omega : (6 : Nat) ≤ 11) (by omega : (11 : Nat) < 12)]
      rfl
    · intro j hj
      rcases hj with hj | hj
      · exact getCell_writeGL_lt r (cancelData oid now) rfl hj
      · exact getCell_writeGL_ge r (cancelData oid now) rfl hj

/-- Witness for C10 at a concrete one-row sheet whose row holds the order ID. -/
theorem C10_witness :
    (cancelPayment "t1" (some "oid_1") false
      [[Val.str "a", .str "b", .str "c", .str "d", .str "e", .str "f",
        .num 5, .str "INR", .str "p_1", .str "oid_1", .str "captured", .str "u"]]).resp =
      .redirect cancelRedirectUrl :=
  (C10_cancel_frame "t1" "oid_1"
    [[Val.str "a", .str "b", .str "c", .str "d", .str "e", .str "f",
      .num 5, .str "INR", .str "p_1", .str "oid_1", .str "captured", .str "u"]] 0
    (by decide) (by decide)).1

end Manga
